import Mathlib

/-!
Shallow embedding of the Shift4 integration project's payment logic.

The definitions below are translated from the repository's TypeScript
source:

* `applyRefundPOST` embeds the `POST /api/v1/refunds` handler
  (`src/app/api/v1/.../route.ts`): payment lookup, the already-refunded
  guard, the `body.amount || payment.amount` default, the
  remaining-balance validation, the gateway `createRefund` call, the
  refund-record insert and the payment/order status updates.
* `webhookPOST` / `runProcess` embed the Shift4 webhook receiver and its
  asynchronous `processWebhookEvent` helper.
* `handleChargeSucceeded` / `handleChargeFailed` embed the webhook event
  handlers built on `prisma.payment.updateMany`.
* `confirmStep` embeds the `POST /api/v1/checkout/online/confirm`
  handler as a sequence of atomic steps, so that interleavings of two
  concurrent identical requests can be examined.
* `pollGo` embeds `SkyTabAdapter.pollTransactionStatus`, and
  `classifyStartPaymentCatch` embeds the `catch` clause of
  `SkyTabAdapter.startPayment` together with the error hierarchy of
  `src/payments/errors.ts`.

Amounts are in minor currency units, i.e. integers, so `Nat`/`Int` model
the JavaScript numbers involved exactly.
-/

namespace Shift4

/-- Prisma `PaymentStatus` values used by the code. -/
inductive PaymentStatus where
  | PENDING
  | CAPTURED
  | FAILED
  | PARTIALLY_REFUNDED
  | REFUNDED
  deriving DecidableEq, Repr

/-- Prisma `RefundStatus` values used by the code. -/
inductive RefundStatus where
  | SUCCEEDED
  | PENDING
  | FAILED
  deriving DecidableEq, Repr

/-- Prisma `OrderStatus` values used by the code. -/
inductive OrderStatus where
  | DRAFT
  | PENDING_PAYMENT
  | PAID
  | PARTIALLY_REFUNDED
  | REFUNDED
  deriving DecidableEq, Repr

/-- A `payment` row, restricted to the fields the embedded handlers read
or write.  `idempotencyKey` abstracts the `nanoid`-generated string of
`generateIdempotencyKey` as a fresh natural number. -/
structure Payment where
  id : String
  orderId : String
  shift4ChargeId : String
  amount : Nat
  status : PaymentStatus
  methodType : String
  idempotencyKey : Nat
  deriving DecidableEq, Repr

/-- A `refund` row, restricted to the fields the refund endpoint reads
or writes. -/
structure Refund where
  orderId : String
  paymentId : String
  amount : Nat
  status : RefundStatus
  deriving DecidableEq, Repr

/-- An `order` row, restricted to the fields the embedded handlers read
or write. -/
structure Order where
  id : String
  total : Nat
  refundedTotal : Nat
  status : OrderStatus
  deriving DecidableEq, Repr

/-- The slice of the database the refund endpoint touches. -/
structure Store where
  payments : List Payment
  refunds : List Refund
  orders : List Order
  deriving DecidableEq, Repr

/-- Body of `POST /api/v1/refunds` (`CreateRefundRequest`); `amount` is
optional. -/
structure RefundBody where
  paymentId : String
  amount : Option Nat
  deriving DecidableEq, Repr

/-- Status Shift4 reports for a freshly created refund; the adapter's
`createRefund` maps `'successful'` to `succeeded` and anything else to
`pending`. -/
inductive GatewayRefundStatus where
  | succeeded
  | pending
  deriving DecidableEq, Repr

/-- JavaScript `a || d` for an optional number: `undefined` and `0` are
falsy, so both fall back to the default. -/
def jsOr (a : Option Nat) (d : Nat) : Nat :=
  match a with
  | none => d
  | some 0 => d
  | some (n + 1) => n + 1

/-- Outcome of the refund endpoint, mirroring its response paths. -/
inductive RefundOutcome where
  | notFound
  | alreadyRefunded
  | overLimit (availableToRefund : Int)
  | success
  | notImplemented
  deriving DecidableEq, Repr

/-- Result of one run of the refund endpoint: the updated store, the
response, and whether `shift4.createRefund` was invoked. -/
structure RefundPOSTResult where
  store : Store
  outcome : RefundOutcome
  gatewayCalled : Bool
  deriving DecidableEq, Repr

/-- Sum of the amounts of `SUCCEEDED` refunds recorded for a payment id:
the `totalRefunded` computation of the refund endpoint. -/
def sumSucceeded (refunds : List Refund) (paymentId : String) : Nat :=
  ((refunds.filter fun r => r.paymentId = paymentId ∧ r.status = RefundStatus.SUCCEEDED).map
    (·.amount)).sum

/-- `POST /api/v1/refunds`: look up the payment, reject if already
refunded, default the amount with `body.amount || payment.amount`,
validate against the remaining refundable balance, and only then call
the gateway, insert the refund row and update payment and order.
The gateway's answer for `createRefund` is passed in as `gw`. -/
def applyRefundPOST (body : RefundBody) (gw : GatewayRefundStatus) (s : Store) :
    RefundPOSTResult :=
  match s.payments.find? fun p => p.id = body.paymentId with
  | none => ⟨s, RefundOutcome.notFound, false⟩
  | some payment =>
    if payment.status = PaymentStatus.REFUNDED then
      ⟨s, RefundOutcome.alreadyRefunded, false⟩
    else
      let refundAmount := jsOr body.amount payment.amount
      let totalRefunded := sumSucceeded s.refunds payment.id
      let availableToRefund : Int := (payment.amount : Int) - totalRefunded
      if (refundAmount : Int) > availableToRefund then
        ⟨s, RefundOutcome.overLimit availableToRefund, false⟩
      else if payment.methodType = "CARD_ONLINE" ∨ payment.methodType = "SAVED_CARD" then
        let refund : Refund :=
          { orderId := payment.orderId
            paymentId := payment.id
            amount := refundAmount
            status := if gw = GatewayRefundStatus.succeeded then RefundStatus.SUCCEEDED
                      else RefundStatus.PENDING }
        let newTotalRefunded := totalRefunded + refundAmount
        let payments' := s.payments.map fun p =>
          if p.id = payment.id then
            { p with status := if newTotalRefunded ≥ payment.amount then PaymentStatus.REFUNDED
                               else PaymentStatus.PARTIALLY_REFUNDED }
          else p
        let orders' := s.orders.map fun o =>
          if o.id = payment.orderId then
            { o with
              refundedTotal := o.refundedTotal + refundAmount
              status := if newTotalRefunded ≥ o.total then OrderStatus.REFUNDED
                        else OrderStatus.PARTIALLY_REFUNDED }
          else o
        ⟨{ payments := payments', refunds := s.refunds ++ [refund], orders := orders' },
          RefundOutcome.success, true⟩
      else ⟨s, RefundOutcome.notImplemented, false⟩

/-- Run a sequence of refund requests (each with the gateway answer it
would get) through the endpoint. -/
def runRefundPOSTs (reqs : List (RefundBody × GatewayRefundStatus)) (s : Store) : Store :=
  reqs.foldl (fun acc rq => (applyRefundPOST rq.1 rq.2 acc).store) s

/-- The refund-ledger invariant: for every payment, the sum of its
`SUCCEEDED` refund amounts is at most the payment's amount. -/
def ledgerOk (s : Store) : Prop :=
  ∀ p ∈ s.payments, sumSucceeded s.refunds p.id ≤ p.amount

instance : DecidablePred ledgerOk := fun s =>
  inferInstanceAs (Decidable (∀ p ∈ s.payments, sumSucceeded s.refunds p.id ≤ p.amount))

/-- Status of the payment with the given id, as `findUnique` sees it. -/
def paymentStatusOf (s : Store) (paymentId : String) : Option PaymentStatus :=
  (s.payments.find? fun p => p.id = paymentId).map (·.status)

/-! ### Webhook receiver (`POST /api/v1/webhooks/shift4`) -/

/-- A `webhookEvent` row, restricted to the fields the receiver and
`processWebhookEvent` read or write.  The event id doubles as the row
key, which is faithful because `eventId` carries a unique constraint. -/
structure WebhookEvent where
  eventId : String
  eventType : String
  processed : Bool
  retryCount : Nat
  processingError : Option String
  deriving DecidableEq, Repr

/-- Result of the synchronous part of the webhook receiver: the updated
event table, the HTTP response status, and whether a
`processWebhookEvent` task was started. -/
structure WebhookPOSTResult where
  db : List WebhookEvent
  response : Nat
  spawned : Bool
  deriving DecidableEq, Repr

/-- The receiver's path for a payload carrying both an event id and a
type: return early with 200 if the event id is already processed,
otherwise upsert the event (insert fresh, or increment `retryCount` on
redelivery), start `processWebhookEvent` without awaiting it, and
acknowledge with 200. -/
def webhookPOSTValid (eventId eventType : String) (db : List WebhookEvent) :
    WebhookPOSTResult :=
  match db.find? fun e => e.eventId = eventId with
  | some existing =>
    if existing.processed then ⟨db, 200, false⟩
    else
      ⟨db.map fun e =>
          if e.eventId = eventId then { e with retryCount := e.retryCount + 1 } else e,
        200, true⟩
  | none =>
    ⟨db ++ [{ eventId := eventId, eventType := eventType, processed := false,
              retryCount := 0, processingError := none }],
      200, true⟩

/-- The synchronous body of the webhook receiver: reject a payload
missing the event id or type with 400, else run the valid path. -/
def webhookPOST (eventId? eventType? : Option String) (db : List WebhookEvent) :
    WebhookPOSTResult :=
  match eventId?, eventType? with
  | some eventId, some eventType => webhookPOSTValid eventId eventType db
  | _, _ => ⟨db, 400, false⟩

/-- Outcome of the type-specific event handler inside
`processWebhookEvent`: either it returned normally or it threw with a
message. -/
inductive HandlerOutcome where
  | ok
  | threw (message : String)
  deriving DecidableEq, Repr

/-- `processWebhookEvent`: run the handler for the event; on success
mark the event processed, on failure record the error message in
`processingError` and leave `processed` untouched (the rethrown error is
swallowed by the `.catch` at the call site). -/
def runProcess (db : List WebhookEvent) (eventId : String) (outcome : HandlerOutcome) :
    List WebhookEvent :=
  match outcome with
  | HandlerOutcome.ok =>
    db.map fun e => if e.eventId = eventId then { e with processed := true } else e
  | HandlerOutcome.threw msg =>
    db.map fun e => if e.eventId = eventId then { e with processingError := some msg } else e

/-- Deliver a webhook and, if a processing task was spawned, run it to
completion with the given handler outcome.  The HTTP response is the
first component and is produced before the task runs. -/
def ackThenProcess (eventId? eventType? : Option String) (db : List WebhookEvent)
    (outcome : HandlerOutcome) : Nat × List WebhookEvent :=
  let r := webhookPOST eventId? eventType? db
  (r.response,
    if r.spawned then runProcess r.db (eventId?.getD "") outcome else r.db)

/-! ### Webhook event handlers over the payment table -/

/-- `handleChargeSucceeded`: `prisma.payment.updateMany` setting status
`CAPTURED` for every payment with the given charge id. -/
def handleChargeSucceeded (chargeId : String) (payments : List Payment) : List Payment :=
  payments.map fun p =>
    if p.shift4ChargeId = chargeId then { p with status := PaymentStatus.CAPTURED } else p

/-- `handleChargeFailed`: `prisma.payment.updateMany` setting status
`FAILED` for every payment with the given charge id. -/
def handleChargeFailed (chargeId : String) (payments : List Payment) : List Payment :=
  payments.map fun p =>
    if p.shift4ChargeId = chargeId then { p with status := PaymentStatus.FAILED } else p

/-! ### Confirm endpoint (`POST /api/v1/checkout/online/confirm`)

The handler performs, in order: `order.findUnique` plus the status
gate, `shift4.createCharge` keyed by a freshly generated idempotency
key, `payment.create`, and `order.update`.  Each of those is an `await`,
i.e. a suspension point at which another request handler may run, so the
handler is embedded as a sequence of atomic steps and a schedule picks
which of two concurrent identical requests advances. -/

/-- Status Shift4 reports for a created charge. -/
inductive GatewayChargeStatus where
  | succeeded
  | failed
  deriving DecidableEq, Repr

/-- Per-request state of one run of the confirm handler.
`pc` counts completed atomic steps: 0 = about to read the order,
1 = about to call `createCharge`, 2 = about to `payment.create`,
3 = about to `order.update`, 4 = finished. -/
structure ConfirmThread where
  pc : Nat
  rejected : Bool
  seenTotal : Nat
  deriving DecidableEq, Repr

/-- Shared state for two concurrent confirm requests against one order.
`chargeCount` counts executions of `shift4.createCharge`; `keyCounter`
models `generateIdempotencyKey`, handing out a fresh key per call. -/
structure ConfirmSys where
  order : Order
  payments : List Payment
  chargeCount : Nat
  keyCounter : Nat
  t0 : ConfirmThread
  t1 : ConfirmThread
  deriving DecidableEq, Repr

/-- The payment row inserted by `prisma.payment.create`: status derived
from the charge result, amount from the order read at step 0, and a
fresh idempotency key. -/
def confirmPayment (gw : GatewayChargeStatus) (sys : ConfirmSys) (t : ConfirmThread) :
    Payment :=
  { id := toString sys.keyCounter
    orderId := sys.order.id
    shift4ChargeId := toString sys.chargeCount
    amount := t.seenTotal
    status := if gw = GatewayChargeStatus.succeeded then PaymentStatus.CAPTURED
              else PaymentStatus.FAILED
    methodType := "CARD_ONLINE"
    idempotencyKey := sys.keyCounter }

/-- The effect of one atomic step of the confirm handler on the shared
state, together with the updated per-request state. -/
def confirmStepCore (gw : GatewayChargeStatus) (sys : ConfirmSys) (t : ConfirmThread) :
    ConfirmSys × ConfirmThread :=
  if t.pc = 0 then
    if sys.order.status = OrderStatus.DRAFT ∨ sys.order.status = OrderStatus.PENDING_PAYMENT then
      (sys, { t with pc := 1, seenTotal := sys.order.total })
    else
      (sys, { t with pc := 4, rejected := true })
  else if t.pc = 1 then
    ({ sys with chargeCount := sys.chargeCount + 1 }, { t with pc := 2 })
  else if t.pc = 2 then
    ({ sys with payments := sys.payments ++ [confirmPayment gw sys t],
                keyCounter := sys.keyCounter + 1 },
      { t with pc := 3 })
  else if t.pc = 3 then
    ({ sys with order := { sys.order with
        status := if gw = GatewayChargeStatus.succeeded then OrderStatus.PAID
                  else OrderStatus.PENDING_PAYMENT } },
      { t with pc := 4 })
  else (sys, t)

/-- Execute the next atomic step of the chosen thread (`false` = first
request, `true` = second).  Both requests are identical and the gateway
answers both with `gw`. -/
def confirmStep (gw : GatewayChargeStatus) (sys : ConfirmSys) (tid : Bool) : ConfirmSys :=
  let t := if tid then sys.t1 else sys.t0
  let r := confirmStepCore gw sys t
  if tid then { r.1 with t1 := r.2 } else { r.1 with t0 := r.2 }

/-- Run a schedule of thread choices from an initial state. -/
def confirmRun (gw : GatewayChargeStatus) (sys : ConfirmSys) (sched : List Bool) : ConfirmSys :=
  sched.foldl (confirmStep gw) sys

/-- Initial state: a fresh order awaiting payment, no payments yet,
both request handlers at their first step. -/
def confirmInit (o : Order) : ConfirmSys :=
  { order := o, payments := [], chargeCount := 0, keyCounter := 0,
    t0 := { pc := 0, rejected := false, seenTotal := 0 },
    t1 := { pc := 0, rejected := false, seenTotal := 0 } }

/-- The idempotency keys attached to the payment rows created so far. -/
def confirmKeys (sys : ConfirmSys) : List Nat :=
  sys.payments.map (·.idempotencyKey)

/-- Freshness of the key generator: all stored keys are distinct and
below the next key to be handed out. -/
abbrev KeyInv (sys : ConfirmSys) : Prop :=
  (confirmKeys sys).Nodup ∧ ∀ k ∈ confirmKeys sys, k < sys.keyCounter

/-- The order both concurrent confirm requests target. -/
def c2Order : Order :=
  { id := "o1", total := 5000, refundedTotal := 0, status := OrderStatus.DRAFT }

/-- Interleaving in which both requests pass the order-status gate
before either books a charge: the second request reads the order, the
first then runs to completion, and the second continues. -/
def c2BadSched : List Bool := [false, true, false, false, false, true, true, true]

/-- Sequential replay: the first request runs to completion, then the
second request reads the order. -/
def c2SeqSched : List Bool := [false, false, false, false, true]

/-! ### SkyTab terminal adapter -/

/-- Canonical transaction status produced by `SkyTabAdapter.mapStatus`;
the poll loop treats `approved`, `declined`, `cancelled` and `error` as
terminal. -/
inductive PollStatus where
  | pending
  | approved
  | declined
  | cancelled
  | timeout
  | error
  deriving DecidableEq, Repr

/-- The `PaymentResult` fields the poll loop produces. -/
structure PaymentResult where
  transactionId : String
  approved : Bool
  amount : Nat
  totalAmount : Nat
  error : Option String
  errorCode : Option String
  deriving DecidableEq, Repr

/-- What one `getStatus` call returns: the mapped status, the parsed
result when the device approved, and an error message when the status
check itself failed. -/
structure TransactionStatus where
  status : PollStatus
  result : Option PaymentResult
  error : Option String
  deriving DecidableEq, Repr

/-- The error hierarchy of `src/payments/errors.ts`, restricted to the
fields the claims are about. -/
structure TermError where
  name : String
  code : String
  retryable : Bool
  terminalId : String
  deriving DecidableEq, Repr

/-- `new TerminalError(message, terminalId)`: `retryable` defaults to
`false` and the code is `TERMINAL_ERROR`. -/
def terminalError (terminalId : String) : TermError :=
  { name := "TerminalError", code := "TERMINAL_ERROR", retryable := false,
    terminalId := terminalId }

/-- `new TerminalOfflineError(terminalId)`: passes `retryable = true` to
`TerminalError` and overrides the code. -/
def terminalOfflineError (terminalId : String) : TermError :=
  { name := "TerminalOfflineError", code := "TERMINAL_OFFLINE", retryable := true,
    terminalId := terminalId }

/-- `new TerminalTimeoutError(terminalId)`: passes `retryable = true` to
`TerminalError` and overrides the code. -/
def terminalTimeoutError (terminalId : String) : TermError :=
  { name := "TerminalTimeoutError", code := "TERMINAL_TIMEOUT", retryable := true,
    terminalId := terminalId }

/-- The loop exit test of `pollTransactionStatus`. -/
def isTerminalStatus (st : PollStatus) : Bool :=
  st = PollStatus.approved ∨ st = PollStatus.declined ∨ st = PollStatus.cancelled ∨
    st = PollStatus.error

/-- Uppercase status string used for the fallback `errorCode`. -/
def statusUpper (st : PollStatus) : String :=
  match st with
  | PollStatus.pending => "PENDING"
  | PollStatus.approved => "APPROVED"
  | PollStatus.declined => "DECLINED"
  | PollStatus.cancelled => "CANCELLED"
  | PollStatus.timeout => "TIMEOUT"
  | PollStatus.error => "ERROR"

/-- Value returned once the loop sees a terminal status: the parsed
result when present, otherwise the not-approved fallback record. -/
def completedResult (st : TransactionStatus) (transactionId : String) (expectedAmount : Nat) :
    PaymentResult :=
  match st.result with
  | some r => r
  | none =>
    { transactionId := transactionId
      approved := false
      amount := expectedAmount
      totalAmount := expectedAmount
      error := some (st.error.getD "Transaction was not approved")
      errorCode := some (statusUpper st.status) }

/-- Result of a full poll run: the outcome, the number of `getStatus`
queries performed, and the total time spent sleeping (the loop sleeps
`intervalMs` before every query). -/
structure PollRun where
  result : Except TermError PaymentResult
  queries : Nat
  sleptMs : Nat
  deriving Repr

/-- The body of `pollTransactionStatus`: `getSt i` is what the `i`-th
`getStatus` call observes (`getStatus` itself never throws: it converts
its own failures into status `error`).  `remaining` counts attempts left
out of `maxAttempts`; when it reaches zero the loop throws
`TerminalTimeoutError`. -/
def pollGo (getSt : Nat → TransactionStatus) (transactionId terminalId : String)
    (expectedAmount intervalMs : Nat) (attempt : Nat) : Nat → PollRun
  | 0 => ⟨Except.error (terminalTimeoutError terminalId), 0, 0⟩
  | remaining + 1 =>
    let st := getSt attempt
    if isTerminalStatus st.status then
      ⟨Except.ok (completedResult st transactionId expectedAmount), 1, intervalMs⟩
    else
      let rest := pollGo getSt transactionId terminalId expectedAmount intervalMs
        (attempt + 1) remaining
      ⟨rest.result, rest.queries + 1, rest.sleptMs + intervalMs⟩

/-- `SkyTabAdapter.pollTransactionStatus` with its defaults
`maxAttempts = 60`, `intervalMs = 2000` made explicit parameters. -/
def pollTransactionStatus (getSt : Nat → TransactionStatus) (transactionId terminalId : String)
    (expectedAmount : Nat) (maxAttempts : Nat := 60) (intervalMs : Nat := 2000) : PollRun :=
  pollGo getSt transactionId terminalId expectedAmount intervalMs 0 maxAttempts

/-- The network-level failure codes an axios error can carry in the
`catch` clause of `SkyTabAdapter.startPayment`. -/
inductive NetErrorCode where
  | ECONNREFUSED
  | ETIMEDOUT
  | ECONNABORTED
  | ENOTFOUND
  | other
  deriving DecidableEq, Repr

/-- The `catch` clause of `SkyTabAdapter.startPayment`: connection
refused and `ETIMEDOUT` become `TerminalOfflineError`, `ECONNABORTED`
becomes `TerminalTimeoutError`, and everything else (a non-axios error,
or any other code, `ENOTFOUND` included) becomes a plain
`TerminalError`. -/
def classifyStartPaymentCatch (isAxiosError : Bool) (code : NetErrorCode)
    (terminalId : String) : TermError :=
  if isAxiosError ∧ (code = NetErrorCode.ECONNREFUSED ∨ code = NetErrorCode.ETIMEDOUT) then
    terminalOfflineError terminalId
  else if isAxiosError ∧ code = NetErrorCode.ECONNABORTED then
    terminalTimeoutError terminalId
  else
    terminalError terminalId

/-! ### Example data used by witnesses -/

/-- An order that has been paid in full. -/
def exOrder : Order :=
  { id := "o1", total := 5000, refundedTotal := 0, status := OrderStatus.PAID }

/-- A card-online payment of 5000 minor units, captured. -/
def exPayment : Payment :=
  { id := "p1", orderId := "o1", shift4ChargeId := "ch1", amount := 5000,
    status := PaymentStatus.CAPTURED, methodType := "CARD_ONLINE", idempotencyKey := 0 }

/-- Store holding the example order and payment, with no refunds yet. -/
def exStore : Store :=
  { payments := [exPayment], refunds := [], orders := [exOrder] }
/-- A `getStatus` answer meaning the device is still working. -/
def stPending : TransactionStatus :=
  { status := PollStatus.pending, result := none, error := none }

/-- A `getStatus` answer reporting an explicit decline with no parsed
result attached. -/
def stDeclined : TransactionStatus :=
  { status := PollStatus.declined, result := none, error := none }

/-- First step of the C9 scenario: refund 2000 of the 5000 payment. -/
def c9Step1 : RefundPOSTResult :=
  applyRefundPOST { paymentId := "p1", amount := some 2000 } GatewayRefundStatus.succeeded
    exStore

/-- Second step of the C9 scenario: refund the remaining 3000. -/
def c9Step2 : RefundPOSTResult :=
  applyRefundPOST { paymentId := "p1", amount := some 3000 } GatewayRefundStatus.succeeded
    c9Step1.store

/-- A payment already advanced to `CAPTURED` for charge `ch_9`, used to
probe how the webhook charge handlers treat stale signals. -/
def capturedPayment : Payment :=
  { id := "p9", orderId := "o9", shift4ChargeId := "ch_9", amount := 5000,
    status := PaymentStatus.CAPTURED, methodType := "CARD_ONLINE", idempotencyKey := 0 }

/-- The same payment while still `PENDING`, before any webhook. -/
def pendingPayment : Payment :=
  { capturedPayment with status := PaymentStatus.PENDING }


/-! ## Helper lemmas about the refund endpoint -/

theorem sumSucceeded_append (rs : List Refund) (r : Refund) (pid : String) :
    sumSucceeded (rs ++ [r]) pid =
      sumSucceeded rs pid +
        (if r.paymentId = pid ∧ r.status = RefundStatus.SUCCEEDED then r.amount else 0) := by
  simp only [sumSucceeded, List.filter_append, List.map_append, List.sum_append]
  by_cases h : r.paymentId = pid ∧ r.status = RefundStatus.SUCCEEDED
  · simp [List.filter, h]
  · simp [List.filter, h]

theorem applyRefundPOST_overLimit (s : Store) (body : RefundBody) (gw : GatewayRefundStatus)
    (p : Payment) (hfind : s.payments.find? (fun q => q.id = body.paymentId) = some p)
    (hnr : p.status ≠ PaymentStatus.REFUNDED)
    (hgt : (jsOr body.amount p.amount : Int) >
      (p.amount : Int) - (sumSucceeded s.refunds p.id : Int)) :
    applyRefundPOST body gw s =
      ⟨s, RefundOutcome.overLimit ((p.amount : Int) - (sumSucceeded s.refunds p.id : Int)),
        false⟩ := by
  unfold applyRefundPOST
  rw [hfind]
  simp only [if_neg hnr]
  rw [if_pos hgt]

/-- The endpoint never changes the list of payment ids. -/
theorem applyRefundPOST_idsMap (body : RefundBody) (gw : GatewayRefundStatus) (s : Store) :
    (applyRefundPOST body gw s).store.payments.map (·.id) = s.payments.map (·.id) := by
  unfold applyRefundPOST
  cases hfind : s.payments.find? (fun q => q.id = body.paymentId) with
  | none => rfl
  | some payment =>
    by_cases hr : payment.status = PaymentStatus.REFUNDED
    · simp [hr]
    · simp only [if_neg hr]
      by_cases hgt : (jsOr body.amount payment.amount : Int) >
          (payment.amount : Int) - (sumSucceeded s.refunds payment.id : Int)
      · rw [if_pos hgt]
      · rw [if_neg hgt]
        by_cases hm : payment.methodType = "CARD_ONLINE" ∨ payment.methodType = "SAVED_CARD"
        · rw [if_pos hm]
          simp only [List.map_map]
          refine List.map_congr_left fun q _ => ?_
          by_cases hq : q.id = payment.id <;> simp [hq]
        · rw [if_neg hm]

/-- One request through the endpoint preserves the refund-ledger
invariant, provided payment ids are unique. -/
theorem applyRefundPOST_ledger (body : RefundBody) (gw : GatewayRefundStatus) (s : Store)
    (hnd : (s.payments.map (·.id)).Nodup) (hok : ledgerOk s) :
    ledgerOk (applyRefundPOST body gw s).store := by
  unfold applyRefundPOST
  cases hfind : s.payments.find? (fun q => q.id = body.paymentId) with
  | none => exact hok
  | some payment =>
    have hmem : payment ∈ s.payments := List.mem_of_find?_eq_some hfind
    by_cases hr : payment.status = PaymentStatus.REFUNDED
    · simp only [if_pos hr]; exact hok
    · simp only [if_neg hr]
      by_cases hgt : (jsOr body.amount payment.amount : Int) >
          (payment.amount : Int) - (sumSucceeded s.refunds payment.id : Int)
      · rw [if_pos hgt]; exact hok
      · rw [if_neg hgt]
        by_cases hm : payment.methodType = "CARD_ONLINE" ∨ payment.methodType = "SAVED_CARD"
        · rw [if_pos hm]
          intro p' hp'
          simp only [List.mem_map] at hp'
          obtain ⟨p, hp, rfl⟩ := hp'
          rw [sumSucceeded_append]
          dsimp only
          have hid : ∀ st : PaymentStatus,
              (if p.id = payment.id then { p with status := st } else p).id = p.id := by
            intro st; by_cases hq : p.id = payment.id <;> simp [hq]
          have hamt : ∀ st : PaymentStatus,
              (if p.id = payment.id then { p with status := st } else p).amount = p.amount := by
            intro st; by_cases hq : p.id = payment.id <;> simp [hq]
          rw [hid, hamt]
          by_cases hc : payment.id = p.id ∧
              (if gw = GatewayRefundStatus.succeeded then RefundStatus.SUCCEEDED
               else RefundStatus.PENDING) = RefundStatus.SUCCEEDED
          · rw [if_pos hc]
            have hpp : p = payment :=
              List.inj_on_of_nodup_map hnd hp hmem (by simpa using hc.1.symm)
            subst hpp
            have hle := not_lt.mp hgt
            have hsum := hok p hp
            omega
          · rw [if_neg hc]
            simpa using hok p hp
        · rw [if_neg hm]
          exact hok

theorem runRefundPOSTs_cons (rq : RefundBody × GatewayRefundStatus)
    (rest : List (RefundBody × GatewayRefundStatus)) (s : Store) :
    runRefundPOSTs (rq :: rest) s = runRefundPOSTs rest (applyRefundPOST rq.1 rq.2 s).store :=
  rfl

/-- Any sequence of refund requests preserves the ledger invariant. -/
theorem runRefundPOSTs_ledger (reqs : List (RefundBody × GatewayRefundStatus)) (s : Store)
    (hnd : (s.payments.map (·.id)).Nodup) (hok : ledgerOk s) :
    ledgerOk (runRefundPOSTs reqs s) := by
  induction reqs generalizing s with
  | nil => exact hok
  | cons rq rest ih =>
    rw [runRefundPOSTs_cons]
    exact ih _ (by rw [applyRefundPOST_idsMap]; exact hnd)
      (applyRefundPOST_ledger rq.1 rq.2 s hnd hok)

/-! ## Claims -/

/-- C1: for every payment, the sum of `SUCCEEDED` refund records never
exceeds the payment's amount across any sequence of refund requests;
and a refund request whose (defaulted) amount exceeds the remaining
refundable balance is answered with the 400 over-limit error while the
store is left untouched and `shift4.createRefund` is never invoked. -/
theorem refund_ledger_never_exceeded_and_overlimit_rejected (s : Store) :
    ((s.payments.map (·.id)).Nodup → ledgerOk s →
      ∀ reqs : List (RefundBody × GatewayRefundStatus), ledgerOk (runRefundPOSTs reqs s)) ∧
    (∀ (body : RefundBody) (gw : GatewayRefundStatus) (p : Payment),
      s.payments.find? (fun q => q.id = body.paymentId) = some p →
      p.status ≠ PaymentStatus.REFUNDED →
      (jsOr body.amount p.amount : Int) >
        (p.amount : Int) - (sumSucceeded s.refunds p.id : Int) →
      applyRefundPOST body gw s =
        ⟨s, RefundOutcome.overLimit ((p.amount : Int) - (sumSucceeded s.refunds p.id : Int)),
          false⟩) :=
  ⟨fun hnd hok reqs => runRefundPOSTs_ledger reqs s hnd hok,
   fun body gw p hfind hnr hgt => applyRefundPOST_overLimit s body gw p hfind hnr hgt⟩

/-- Witness for C1 at a concrete store: a legal partial refund followed
by an over-limit attempt keeps the ledger within bounds, and a direct
over-limit request of 6000 against the 5000 payment is rejected with
the store unchanged and the gateway not called. -/
theorem refund_ledger_never_exceeded_and_overlimit_rejected_witness :
    ledgerOk (runRefundPOSTs
      [({ paymentId := "p1", amount := some 2000 }, GatewayRefundStatus.succeeded),
       ({ paymentId := "p1", amount := some 9999 }, GatewayRefundStatus.succeeded)] exStore) ∧
    applyRefundPOST { paymentId := "p1", amount := some 6000 } GatewayRefundStatus.succeeded
        exStore =
      ⟨exStore,
        RefundOutcome.overLimit
          ((exPayment.amount : Int) - (sumSucceeded exStore.refunds exPayment.id : Int)),
        false⟩ :=
  ⟨(refund_ledger_never_exceeded_and_overlimit_rejected exStore).1 (by decide) (by decide) _,
   (refund_ledger_never_exceeded_and_overlimit_rejected exStore).2
     { paymentId := "p1", amount := some 6000 } GatewayRefundStatus.succeeded exPayment
     (by decide) (by decide) (by decide)⟩

/-- C9: on a captured 5000 payment, a refund of 2000 succeeds and sets
the payment to `PARTIALLY_REFUNDED`; a second refund of 3000 succeeds
and sets it to `REFUNDED`; any third refund request, of any amount and
whatever the gateway would answer, is rejected with the
already-refunded error, leaves the store unchanged and creates no
refund record. -/
theorem refund_scenario_2000_3000_then_reject :
    c9Step1.outcome = RefundOutcome.success ∧
    paymentStatusOf c9Step1.store "p1" = some PaymentStatus.PARTIALLY_REFUNDED ∧
    c9Step2.outcome = RefundOutcome.success ∧
    paymentStatusOf c9Step2.store "p1" = some PaymentStatus.REFUNDED ∧
    ∀ (amt : Option Nat) (gw : GatewayRefundStatus),
      applyRefundPOST { paymentId := "p1", amount := amt } gw c9Step2.store =
        ⟨c9Step2.store, RefundOutcome.alreadyRefunded, false⟩ :=
  ⟨by decide, by decide, by decide, by decide, fun amt gw => rfl⟩

/-- C10: a refund request that omits `amount` (or sends `amount = 0`)
falls back to the payment's full original amount, not the remaining
balance; hence once any positive-amount `SUCCEEDED` refund exists for a
payment not yet marked `REFUNDED`, such a request is always rejected as
over the limit, with the store untouched and the gateway not called. -/
theorem refund_missing_amount_defaults_to_full_amount (d : Nat) (s : Store) (pid : String)
    (gw : GatewayRefundStatus) (p : Payment)
    (hfind : s.payments.find? (fun q => q.id = pid) = some p)
    (hnr : p.status ≠ PaymentStatus.REFUNDED)
    (hpos : 0 < sumSucceeded s.refunds p.id) :
    jsOr none d = d ∧ jsOr (some 0) d = d ∧
    applyRefundPOST { paymentId := pid, amount := none } gw s =
      ⟨s, RefundOutcome.overLimit ((p.amount : Int) - (sumSucceeded s.refunds p.id : Int)),
        false⟩ ∧
    applyRefundPOST { paymentId := pid, amount := some 0 } gw s =
      ⟨s, RefundOutcome.overLimit ((p.amount : Int) - (sumSucceeded s.refunds p.id : Int)),
        false⟩ := by
  have hgt : ∀ a : Option Nat, jsOr a p.amount = p.amount →
      (jsOr a p.amount : Int) > (p.amount : Int) - (sumSucceeded s.refunds p.id : Int) := by
    intro a ha; rw [ha]; omega
  exact ⟨rfl, rfl,
    applyRefundPOST_overLimit s { paymentId := pid, amount := none } gw p hfind hnr
      (hgt none rfl),
    applyRefundPOST_overLimit s { paymentId := pid, amount := some 0 } gw p hfind hnr
      (hgt (some 0) rfl)⟩

/-- Witness for C10 on the store reached after the 2000 partial refund
of the C9 scenario: an amount-less refund request is rejected as
exceeding the remaining balance. -/
theorem refund_missing_amount_defaults_to_full_amount_witness :
    jsOr none 5000 = 5000 ∧ jsOr (some 0) 5000 = 5000 ∧
    applyRefundPOST { paymentId := "p1", amount := none } GatewayRefundStatus.succeeded
        c9Step1.store =
      ⟨c9Step1.store,
        RefundOutcome.overLimit
          ((exPayment.amount : Int) - (sumSucceeded c9Step1.store.refunds exPayment.id : Int)),
        false⟩ ∧
    applyRefundPOST { paymentId := "p1", amount := some 0 } GatewayRefundStatus.succeeded
        c9Step1.store =
      ⟨c9Step1.store,
        RefundOutcome.overLimit
          ((exPayment.amount : Int) - (sumSucceeded c9Step1.store.refunds exPayment.id : Int)),
        false⟩ := by
  have h := refund_missing_amount_defaults_to_full_amount 5000 c9Step1.store "p1"
    GatewayRefundStatus.succeeded
    { exPayment with status := PaymentStatus.PARTIALLY_REFUNDED }
    (by decide) (by decide) (by decide)
  exact ⟨h.1, h.2.1, h.2.2.1, h.2.2.2⟩

/-! ## Helper lemmas about the confirm endpoint -/

theorem confirmStep_payments (gw : GatewayChargeStatus) (sys : ConfirmSys) (tid : Bool) :
    (confirmStep gw sys tid).payments =
      (confirmStepCore gw sys (if tid then sys.t1 else sys.t0)).1.payments ∧
    (confirmStep gw sys tid).keyCounter =
      (confirmStepCore gw sys (if tid then sys.t1 else sys.t0)).1.keyCounter := by
  cases tid <;> exact ⟨rfl, rfl⟩

theorem confirmStepCore_keyInv (gw : GatewayChargeStatus) (sys : ConfirmSys)
    (t : ConfirmThread) (hnd : (sys.payments.map (·.idempotencyKey)).Nodup)
    (hlt : ∀ k ∈ sys.payments.map (·.idempotencyKey), k < sys.keyCounter) :
    ((confirmStepCore gw sys t).1.payments.map (·.idempotencyKey)).Nodup ∧
    ∀ k ∈ (confirmStepCore gw sys t).1.payments.map (·.idempotencyKey),
      k < (confirmStepCore gw sys t).1.keyCounter := by
  unfold confirmStepCore
  by_cases h0 : t.pc = 0
  · rw [if_pos h0]
    by_cases hs : sys.order.status = OrderStatus.DRAFT ∨
        sys.order.status = OrderStatus.PENDING_PAYMENT
    · rw [if_pos hs]; exact ⟨hnd, hlt⟩
    · rw [if_neg hs]; exact ⟨hnd, hlt⟩
  · rw [if_neg h0]
    by_cases h1 : t.pc = 1
    · rw [if_pos h1]; exact ⟨hnd, hlt⟩
    · rw [if_neg h1]
      by_cases h2 : t.pc = 2
      · rw [if_pos h2]
        dsimp only
        refine ⟨?_, ?_⟩
        · simp only [List.map_append, List.map_cons, List.map_nil]
          rw [List.nodup_append]
          refine ⟨hnd, List.nodup_singleton _, ?_⟩
          intro k hk hk1
          have hlt2 := hlt k hk
          have hkc : k = sys.keyCounter := by simpa [confirmPayment] using hk1
          omega
        · intro k hk
          simp only [List.map_append, List.map_cons, List.map_nil, List.mem_append,
            List.mem_singleton] at hk
          rcases hk with hk | hk
          · have := hlt k hk; omega
          · simp only [confirmPayment] at hk; omega
      · rw [if_neg h2]
        by_cases h3 : t.pc = 3
        · rw [if_pos h3]; exact ⟨hnd, hlt⟩
        · rw [if_neg h3]; exact ⟨hnd, hlt⟩

/-- Key freshness is preserved by every step of every schedule. -/
theorem confirmRun_keyInv (gw : GatewayChargeStatus) (sched : List Bool) (sys : ConfirmSys)
    (h : KeyInv sys) : KeyInv (confirmRun gw sys sched) := by
  induction sched generalizing sys with
  | nil => exact h
  | cons tid rest ih =>
    refine ih (confirmStep gw sys tid) ?_
    obtain ⟨h1, h2⟩ := confirmStep_payments gw sys tid
    obtain ⟨g1, g2⟩ := confirmStepCore_keyInv gw sys (if tid then sys.t1 else sys.t0) h.1 h.2
    constructor
    · rw [confirmKeys, h1]; exact g1
    · rw [confirmKeys, h1, h2]; exact g2

/-- C2 counterexample: two concurrent runs of the same confirm request
for one order, interleaved so that both pass the order-status gate
before either updates the order, execute `shift4.createCharge` twice
and store two `CAPTURED` payment rows for that order — the claimed
idempotency-key protection does not prevent the double charge. -/
theorem confirm_interleaved_duplicate_creates_two_charges :
    (confirmRun GatewayChargeStatus.succeeded (confirmInit c2Order) c2BadSched).chargeCount
        = 2 ∧
    ((confirmRun GatewayChargeStatus.succeeded (confirmInit c2Order) c2BadSched).payments.map
        (·.status)) = [PaymentStatus.CAPTURED, PaymentStatus.CAPTURED] ∧
    ((confirmRun GatewayChargeStatus.succeeded (confirmInit c2Order) c2BadSched).payments.map
        (·.orderId)) = ["o1", "o1"] := by
  decide

/-- C2 amended: the confirm endpoint hands every request a fresh
idempotency key (so stored keys are always pairwise distinct and no
second write with an existing key ever occurs), and the only
duplicate-charge protection is the order-status gate: once the first
request has committed its order update, a sequential repeat of the same
request is rejected without a second `createCharge`. -/
theorem confirm_fresh_keys_and_sequential_gate (gw : GatewayChargeStatus) (o : Order)
    (sched : List Bool) :
    (confirmKeys (confirmRun gw (confirmInit o) sched)).Nodup ∧
    (confirmRun GatewayChargeStatus.succeeded (confirmInit c2Order) c2SeqSched).chargeCount
        = 1 ∧
    (confirmRun GatewayChargeStatus.succeeded (confirmInit c2Order) c2SeqSched).t1.rejected
        = true ∧
    (confirmRun GatewayChargeStatus.succeeded (confirmInit c2Order)
        c2SeqSched).payments.length = 1 :=
  ⟨(confirmRun_keyInv gw sched (confirmInit o)
      ⟨List.nodup_nil, by intro k hk; simp [confirmKeys, confirmInit] at hk⟩).1,
   by decide, by decide, by decide⟩

/-- Witness for the amended C2 at the concrete bad schedule: even the
double-charging interleaving stores two distinct idempotency keys. -/
theorem confirm_fresh_keys_and_sequential_gate_witness :
    (confirmKeys (confirmRun GatewayChargeStatus.succeeded (confirmInit c2Order)
      c2BadSched)).Nodup ∧
    (confirmRun GatewayChargeStatus.succeeded (confirmInit c2Order) c2SeqSched).chargeCount
        = 1 :=
  ⟨(confirm_fresh_keys_and_sequential_gate GatewayChargeStatus.succeeded c2Order
      c2BadSched).1,
   (confirm_fresh_keys_and_sequential_gate GatewayChargeStatus.succeeded c2Order
      c2BadSched).2.1⟩

/-! ## Helper lemmas about the webhook receiver -/

/-- A mapped update guarded on the event id commutes with lookup by
that id, provided the update preserves the id. -/
theorem webhook_find?_guardMap (db : List WebhookEvent) (id : String)
    (g : WebhookEvent → WebhookEvent) (hg : ∀ e, (g e).eventId = e.eventId) :
    ((db.map fun e => if e.eventId = id then g e else e).find? fun x => x.eventId = id) =
      (db.find? fun x => x.eventId = id).map fun e => if e.eventId = id then g e else e := by
  rw [List.find?_map]
  have hpf : ((fun x : WebhookEvent => decide (x.eventId = id)) ∘
        fun e => if e.eventId = id then g e else e) =
      fun x : WebhookEvent => decide (x.eventId = id) := by
    funext x
    by_cases hx : x.eventId = id <;> simp [Function.comp, hx, hg]
  rw [hpf]

/-- A valid webhook delivery is always acknowledged with HTTP 200. -/
theorem webhookPOST_ack (id ty : String) (db : List WebhookEvent) :
    (webhookPOST (some id) (some ty) db).response = 200 := by
  show (webhookPOSTValid id ty db).response = 200
  unfold webhookPOSTValid
  cases hf : db.find? fun e => e.eventId = id with
  | none => rfl
  | some e => by_cases hp : e.processed <;> simp [hp]

/-- When the event id is not yet processed (absent, or stored with
`processed = false`), the receiver spawns processing and the upserted
row is stored unprocessed under that id. -/
theorem webhookPOST_unprocessed (id ty : String) (db : List WebhookEvent)
    (h : ∀ e, db.find? (fun x => x.eventId = id) = some e → e.processed = false) :
    (webhookPOST (some id) (some ty) db).spawned = true ∧
    ∃ e, ((webhookPOST (some id) (some ty) db).db.find? fun x => x.eventId = id) = some e ∧
      e.processed = false ∧ e.eventId = id := by
  show (webhookPOSTValid id ty db).spawned = true ∧
    ∃ e, ((webhookPOSTValid id ty db).db.find? fun x => x.eventId = id) = some e ∧
      e.processed = false ∧ e.eventId = id
  unfold webhookPOSTValid
  cases hf : db.find? fun e => e.eventId = id with
  | none =>
    refine ⟨rfl, ?_⟩
    refine ⟨{ eventId := id, eventType := ty, processed := false, retryCount := 0,
              processingError := none }, ?_, rfl, rfl⟩
    rw [List.find?_append, hf]
    simp
  | some e =>
    have hp : e.processed = false := h e hf
    dsimp only
    rw [hp]
    refine ⟨rfl, ?_⟩
    have hid : e.eventId = id := by simpa using List.find?_some hf
    refine ⟨{ e with retryCount := e.retryCount + 1 }, ?_, hp, hid⟩
    show ((db.map fun x => if x.eventId = id then { x with retryCount := x.retryCount + 1 }
        else x).find? fun x => x.eventId = id) = _
    rw [webhook_find?_guardMap db id (fun x => { x with retryCount := x.retryCount + 1 })
      (fun x => rfl), hf]
    simp [hid]

/-- C3 counterexample: deliver an event, and deliver it again before
its processing task has run; the second delivery is acknowledged with
200 but spawns a second `processWebhookEvent` run (the claim says it
must not). -/
theorem webhook_redelivery_unprocessed_spawns_second_run :
    (webhookPOST (some "evt_1") (some "charge.succeeded") (List.nil : List WebhookEvent)).spawned
        = true ∧
    (webhookPOST (some "evt_1") (some "charge.succeeded")
      (webhookPOST (some "evt_1") (some "charge.succeeded")
        (List.nil : List WebhookEvent)).db).spawned = true ∧
    (webhookPOST (some "evt_1") (some "charge.succeeded")
      (webhookPOST (some "evt_1") (some "charge.succeeded")
        (List.nil : List WebhookEvent)).db).response = 200 := by
  decide

/-- C3 amended: every valid delivery is acknowledged with 200; a
redelivery after the event has been processed is a pure no-op (no new
processing run, table unchanged); but a redelivery while the event is
stored unprocessed increments `retryCount` and spawns processing
again. -/
theorem webhook_dedup_only_after_processed (id ty : String) (db : List WebhookEvent) :
    (webhookPOST (some id) (some ty) db).response = 200 ∧
    (∀ e, db.find? (fun x => x.eventId = id) = some e → e.processed = true →
      webhookPOST (some id) (some ty) db = ⟨db, 200, false⟩) ∧
    (∀ e, db.find? (fun x => x.eventId = id) = some e → e.processed = false →
      (webhookPOST (some id) (some ty) db).spawned = true ∧
      ((webhookPOST (some id) (some ty) db).db.find? fun x => x.eventId = id) =
        some { e with retryCount := e.retryCount + 1 }) := by
  refine ⟨webhookPOST_ack id ty db, ?_, ?_⟩
  · intro e hf hp
    show webhookPOSTValid id ty db = _
    unfold webhookPOSTValid
    rw [hf]
    dsimp only
    rw [if_pos hp]
  · intro e hf hp
    have hid : e.eventId = id := by simpa using List.find?_some hf
    have hbody : webhookPOSTValid id ty db =
        ⟨db.map fun x =>
            if x.eventId = id then { x with retryCount := x.retryCount + 1 } else x,
          200, true⟩ := by
      unfold webhookPOSTValid
      rw [hf]
      dsimp only
      rw [hp]
      rfl
    constructor
    · show (webhookPOSTValid id ty db).spawned = true
      rw [hbody]
    · show ((webhookPOSTValid id ty db).db.find? fun x => x.eventId = id) = _
      rw [hbody]
      show ((db.map fun x => if x.eventId = id then { x with retryCount := x.retryCount + 1 }
          else x).find? fun x => x.eventId = id) = _
      rw [webhook_find?_guardMap db id (fun x => { x with retryCount := x.retryCount + 1 })
        (fun x => rfl), hf]
      simp [hid]

/-- Witness for the amended C3: a processed event is acknowledged
without reprocessing; an unprocessed one is respawned with its retry
counter bumped. -/
theorem webhook_dedup_only_after_processed_witness :
    webhookPOST (some "e1") (some "t1")
        [{ eventId := "e1", eventType := "t1", processed := true, retryCount := 0,
           processingError := none }] =
      ⟨[{ eventId := "e1", eventType := "t1", processed := true, retryCount := 0,
          processingError := none }], 200, false⟩ ∧
    (webhookPOST (some "e1") (some "t1")
        [{ eventId := "e1", eventType := "t1", processed := false, retryCount := 0,
           processingError := none }]).spawned = true :=
  ⟨(webhook_dedup_only_after_processed "e1" "t1" _).2.1
      { eventId := "e1", eventType := "t1", processed := true, retryCount := 0,
        processingError := none } (by decide) rfl,
   ((webhook_dedup_only_after_processed "e1" "t1" _).2.2
      { eventId := "e1", eventType := "t1", processed := false, retryCount := 0,
        processingError := none } (by decide) rfl).1⟩

/-- C6: for a valid delivery the acknowledgement is 200 whatever the
asynchronous handler later does; and when the event was not already
processed, a handler that throws leaves the event with
`processed = false` and its message recorded in `processingError`,
without touching the acknowledgement. -/
theorem webhook_ack_before_processing_and_failure_recorded (id ty msg : String)
    (db : List WebhookEvent)
    (h : ∀ e, db.find? (fun x => x.eventId = id) = some e → e.processed = false) :
    (∀ outcome : HandlerOutcome,
      (ackThenProcess (some id) (some ty) db outcome).1 = 200) ∧
    ∃ e, ((ackThenProcess (some id) (some ty) db (HandlerOutcome.threw msg)).2.find?
        fun x => x.eventId = id) = some e ∧
      e.processed = false ∧ e.processingError = some msg := by
  obtain ⟨hsp, e1, hfind, hproc, hid⟩ := webhookPOST_unprocessed id ty db h
  constructor
  · intro outcome
    show (webhookPOST (some id) (some ty) db).response = 200
    exact webhookPOST_ack id ty db
  · refine ⟨{ e1 with processingError := some msg }, ?_, hproc, rfl⟩
    show ((if (webhookPOST (some id) (some ty) db).spawned then
        runProcess (webhookPOST (some id) (some ty) db).db ((some id).getD "")
          (HandlerOutcome.threw msg)
      else (webhookPOST (some id) (some ty) db).db).find? fun x => x.eventId = id) = _
    rw [hsp, if_pos rfl]
    show ((((webhookPOST (some id) (some ty) db).db).map fun e =>
        if e.eventId = id then { e with processingError := some msg } else e).find?
          fun x => x.eventId = id) = _
    rw [webhook_find?_guardMap _ id (fun x => { x with processingError := some msg })
      (fun x => rfl), hfind]
    simp [hid]

/-- Witness for C6 on an empty event table: first delivery acks 200 for
any handler outcome, and a throwing handler records its message while
leaving the event unprocessed. -/
theorem webhook_ack_before_processing_and_failure_recorded_witness :
    (∀ outcome : HandlerOutcome,
      (ackThenProcess (some "e9") (some "charge.failed") (List.nil : List WebhookEvent)
        outcome).1 = 200) ∧
    ∃ e, ((ackThenProcess (some "e9") (some "charge.failed") (List.nil : List WebhookEvent)
        (HandlerOutcome.threw "boom")).2.find? fun x => x.eventId = "e9") = some e ∧
      e.processed = false ∧ e.processingError = some "boom" :=
  webhook_ack_before_processing_and_failure_recorded "e9" "charge.failed" "boom" List.nil
    (fun e he => by simp at he)

/-! ## Claims about the webhook charge handlers -/

/-- C4 counterexample: the code has no revision-gated transitions.
Processing a `charge.failed` event against a payment that has already
advanced to `CAPTURED` does not fail with any conflict signal and does
not leave the state unchanged: `updateMany` overwrites the status to
`FAILED` unconditionally. -/
theorem charge_failed_no_conflict_check :
    handleChargeFailed "ch_9" [capturedPayment] ≠ [capturedPayment] ∧
    (handleChargeFailed "ch_9" [capturedPayment]).map (·.status) = [PaymentStatus.FAILED] := by
  decide

/-- C4 amended: webhook transitions carry no expected revision and there
is no conflict path; `handleChargeFailed` sets every payment with the
matching charge id to `FAILED` whatever its prior status, returns
payments with other charge ids unchanged, and never drops or errors on
a row. -/
theorem charge_failed_applies_unconditionally (chargeId : String) (ps : List Payment) :
    (∀ p' ∈ handleChargeFailed chargeId ps, p'.shift4ChargeId = chargeId →
      p'.status = PaymentStatus.FAILED) ∧
    (∀ p ∈ ps, p.shift4ChargeId ≠ chargeId → p ∈ handleChargeFailed chargeId ps) ∧
    (handleChargeFailed chargeId ps).length = ps.length := by
  refine ⟨?_, ?_, List.length_map ps _⟩
  · intro p' hp' hcid
    simp only [handleChargeFailed, List.mem_map] at hp'
    obtain ⟨p, hp, rfl⟩ := hp'
    by_cases hc : p.shift4ChargeId = chargeId
    · simp [hc]
    · simp only [if_neg hc] at hcid
      exact absurd hcid hc
  · intro p hp hne
    simp only [handleChargeFailed, List.mem_map]
    exact ⟨p, hp, by simp [hne]⟩

/-- Witness for the amended C4 on a concrete captured payment. -/
theorem charge_failed_applies_unconditionally_witness :
    ({ capturedPayment with status := PaymentStatus.FAILED } : Payment).status
        = PaymentStatus.FAILED :=
  (charge_failed_applies_unconditionally "ch_9" [capturedPayment]).1
    { capturedPayment with status := PaymentStatus.FAILED } (by decide) rfl

/-- C5: processing a `charge.succeeded` for charge `ch_9` captures the
pending payment; a stale `charge.failed` for the same charge processed
afterwards is not discarded — it overwrites `CAPTURED` with `FAILED`,
so arrival order, not business semantics, decides the final status. -/
theorem stale_charge_failed_overwrites_captured :
    (handleChargeSucceeded "ch_9" [pendingPayment]).map (·.status)
        = [PaymentStatus.CAPTURED] ∧
    (handleChargeFailed "ch_9" (handleChargeSucceeded "ch_9" [pendingPayment])).map (·.status)
        = [PaymentStatus.FAILED] := by
  decide

/-! ## Helper lemmas about the poll loop -/

theorem pollGo_queries_le (getSt : Nat → TransactionStatus) (txId termId : String)
    (amt intMs : Nat) : ∀ remaining attempt,
    (pollGo getSt txId termId amt intMs attempt remaining).queries ≤ remaining := by
  intro remaining
  induction remaining with
  | zero => intro attempt; exact Nat.le_refl 0
  | succ r ih =>
    intro attempt
    unfold pollGo
    by_cases ht : isTerminalStatus (getSt attempt).status = true
    · rw [if_pos ht]; exact Nat.succ_le_succ (Nat.zero_le r)
    · rw [if_neg ht]
      exact Nat.succ_le_succ (ih (attempt + 1))

theorem pollGo_slept (getSt : Nat → TransactionStatus) (txId termId : String)
    (amt intMs : Nat) : ∀ remaining attempt,
    (pollGo getSt txId termId amt intMs attempt remaining).sleptMs =
      (pollGo getSt txId termId amt intMs attempt remaining).queries * intMs := by
  intro remaining
  induction remaining with
  | zero => intro attempt; simp [pollGo]
  | succ r ih =>
    intro attempt
    unfold pollGo
    by_cases ht : isTerminalStatus (getSt attempt).status = true
    · rw [if_pos ht]; simp
    · rw [if_neg ht]
      dsimp only
      rw [ih (attempt + 1), Nat.succ_mul]

theorem pollGo_timeout (getSt : Nat → TransactionStatus) (txId termId : String)
    (amt intMs : Nat) : ∀ remaining attempt,
    (∀ i < remaining, isTerminalStatus (getSt (attempt + i)).status = false) →
    (pollGo getSt txId termId amt intMs attempt remaining).result =
      Except.error (terminalTimeoutError termId) ∧
    (pollGo getSt txId termId amt intMs attempt remaining).queries = remaining := by
  intro remaining
  induction remaining with
  | zero => intro attempt h; exact ⟨rfl, rfl⟩
  | succ r ih =>
    intro attempt h
    have h0 : isTerminalStatus (getSt attempt).status = false := by
      simpa using h 0 (Nat.succ_pos r)
    unfold pollGo
    rw [if_neg (by rw [h0]; exact Bool.false_ne_true)]
    dsimp only
    have hrest := ih (attempt + 1) fun i hi => by
      have := h (i + 1) (Nat.succ_lt_succ hi)
      simpa [Nat.add_assoc, Nat.add_comm 1 i] using this
    exact ⟨hrest.1, by rw [hrest.2]⟩

theorem pollGo_first_terminal (getSt : Nat → TransactionStatus) (txId termId : String)
    (amt intMs : Nat) : ∀ (k remaining attempt : Nat), k < remaining →
    isTerminalStatus (getSt (attempt + k)).status = true →
    (∀ i < k, isTerminalStatus (getSt (attempt + i)).status = false) →
    (pollGo getSt txId termId amt intMs attempt remaining).result =
      Except.ok (completedResult (getSt (attempt + k)) txId amt) ∧
    (pollGo getSt txId termId amt intMs attempt remaining).queries = k + 1 := by
  intro k
  induction k with
  | zero =>
    intro remaining attempt hk hterm hbefore
    obtain ⟨r, rfl⟩ := Nat.exists_eq_add_of_lt hk
    unfold pollGo
    rw [if_pos (by simpa using hterm)]
    exact ⟨by simp, rfl⟩
  | succ k ih =>
    intro remaining attempt hk hterm hbefore
    obtain ⟨r, rfl⟩ := Nat.exists_eq_add_of_lt hk
    have h0 : isTerminalStatus (getSt attempt).status = false := by
      simpa using hbefore 0 (Nat.succ_pos k)
    show (pollGo getSt txId termId amt intMs attempt (k + 1 + r + 1)).result = _ ∧
      (pollGo getSt txId termId amt intMs attempt (k + 1 + r + 1)).queries = _
    unfold pollGo
    rw [if_neg (by rw [h0]; exact Bool.false_ne_true)]
    dsimp only
    have hrec := ih (k + 1 + r) (attempt + 1) (by omega)
      (by simpa [Nat.add_assoc, Nat.add_comm 1 k] using hterm)
      (fun i hi => by
        have := hbefore (i + 1) (Nat.succ_lt_succ hi)
        simpa [Nat.add_assoc, Nat.add_comm 1 i] using this)
    constructor
    · rw [hrec.1]
      have harg : attempt + 1 + k = attempt + (k + 1) := by omega
      rw [harg]
    · rw [hrec.2]

/-- C7: the poll loop issues at most `maxAttempts` status queries,
sleeping `intervalMs` before each one (so total wait is
`queries * intervalMs`); it stops at the first query whose status is
terminal (`approved`, `declined`, `cancelled` or `error`), returning
that query's result; and if no terminal status shows up within the
budget it ends by throwing `TerminalTimeoutError`. -/
theorem poll_bounded_stops_on_terminal_or_times_out (getSt : Nat → TransactionStatus)
    (txId termId : String) (amt maxAttempts intervalMs : Nat) :
    (pollTransactionStatus getSt txId termId amt maxAttempts intervalMs).queries
        ≤ maxAttempts ∧
    (pollTransactionStatus getSt txId termId amt maxAttempts intervalMs).sleptMs =
      (pollTransactionStatus getSt txId termId amt maxAttempts intervalMs).queries
        * intervalMs ∧
    (∀ k < maxAttempts, isTerminalStatus (getSt k).status = true →
      (∀ i < k, isTerminalStatus (getSt i).status = false) →
      (pollTransactionStatus getSt txId termId amt maxAttempts intervalMs).result =
        Except.ok (completedResult (getSt k) txId amt) ∧
      (pollTransactionStatus getSt txId termId amt maxAttempts intervalMs).queries = k + 1) ∧
    ((∀ i < maxAttempts, isTerminalStatus (getSt i).status = false) →
      (pollTransactionStatus getSt txId termId amt maxAttempts intervalMs).result =
        Except.error (terminalTimeoutError termId) ∧
      (pollTransactionStatus getSt txId termId amt maxAttempts intervalMs).queries
        = maxAttempts) := by
  refine ⟨pollGo_queries_le getSt txId termId amt intervalMs maxAttempts 0,
    pollGo_slept getSt txId termId amt intervalMs maxAttempts 0, ?_, ?_⟩
  · intro k hk hterm hbefore
    have h := pollGo_first_terminal getSt txId termId amt intervalMs k maxAttempts 0 hk
      (by simpa using hterm) (fun i hi => by simpa using hbefore i hi)
    simpa using h
  · intro h
    exact pollGo_timeout getSt txId termId amt intervalMs maxAttempts 0
      (fun i hi => by simpa using h i hi)

/-- Witness for C7 with the default budget of 60 attempts at 2000 ms:
a device that stays pending twice and then declines is answered at the
third query after 6000 ms of waiting, and a device that never leaves
pending exhausts all 60 queries and times out. -/
theorem poll_bounded_stops_on_terminal_or_times_out_witness :
    ((pollTransactionStatus (fun i => if i = 2 then stDeclined else stPending) "tx" "term"
        500 60 2000).result = Except.ok (completedResult stDeclined "tx" 500) ∧
      (pollTransactionStatus (fun i => if i = 2 then stDeclined else stPending) "tx" "term"
        500 60 2000).queries = 3) ∧
    ((pollTransactionStatus (fun _ => stPending) "tx" "term" 500 60 2000).result =
        Except.error (terminalTimeoutError "term") ∧
      (pollTransactionStatus (fun _ => stPending) "tx" "term" 500 60 2000).queries = 60) :=
  ⟨(poll_bounded_stops_on_terminal_or_times_out
      (fun i => if i = 2 then stDeclined else stPending) "tx" "term" 500 60 2000).2.2.1 2
      (by decide) (by decide) (by decide),
   (poll_bounded_stops_on_terminal_or_times_out (fun _ => stPending) "tx" "term"
      500 60 2000).2.2.2 (fun i hi => by decide)⟩

/-- C8 counterexample: a DNS failure (`ENOTFOUND`) in
`startPayment`'s catch clause is not turned into the retryable
offline/timeout condition — it falls through to the generic
`TerminalError` with `retryable = false`. -/
theorem dns_failure_not_classified_retryable :
    (classifyStartPaymentCatch true NetErrorCode.ENOTFOUND "term_1").retryable = false ∧
    classifyStartPaymentCatch true NetErrorCode.ENOTFOUND "term_1" = terminalError "term_1" ∧
    (classifyStartPaymentCatch true NetErrorCode.ENOTFOUND "term_1").name ≠
      "TerminalOfflineError" := by
  decide

/-- C8 amended: connection refused and `ETIMEDOUT` raise the retryable
`TerminalOfflineError`, and `ECONNABORTED` the retryable
`TerminalTimeoutError`, while a DNS failure (`ENOTFOUND`) falls through
to the non-retryable generic `TerminalError`; an explicit `declined`
device response is not an exception at all — the poll loop returns a
result with `approved = false`. -/
theorem network_failure_classification (termId : String) :
    classifyStartPaymentCatch true NetErrorCode.ECONNREFUSED termId =
      terminalOfflineError termId ∧
    classifyStartPaymentCatch true NetErrorCode.ETIMEDOUT termId =
      terminalOfflineError termId ∧
    classifyStartPaymentCatch true NetErrorCode.ECONNABORTED termId =
      terminalTimeoutError termId ∧
    (terminalOfflineError termId).retryable = true ∧
    (terminalTimeoutError termId).retryable = true ∧
    classifyStartPaymentCatch true NetErrorCode.ENOTFOUND termId = terminalError termId ∧
    (terminalError termId).retryable = false ∧
    ∀ (txId : String) (amt intMs n : Nat),
      (pollGo (fun _ => stDeclined) txId termId amt intMs 0 (n + 1)).result =
        Except.ok (completedResult stDeclined txId amt) ∧
      (completedResult stDeclined txId amt).approved = false :=
  ⟨rfl, rfl, rfl, rfl, rfl, rfl, rfl, fun _ _ _ _ => ⟨rfl, rfl⟩⟩

/-- Witness for the amended C8 at a concrete terminal id. -/
theorem network_failure_classification_witness :
    classifyStartPaymentCatch true NetErrorCode.ECONNREFUSED "term_7" =
      terminalOfflineError "term_7" ∧
    (pollGo (fun _ => stDeclined) "tx" "term_7" 500 2000 0 60).result =
      Except.ok (completedResult stDeclined "tx" 500) :=
  ⟨(network_failure_classification "term_7").1,
   ((network_failure_classification "term_7").2.2.2.2.2.2.2 "tx" 500 2000 59).1⟩

end Shift4
